import Mathlib

/-!
Shallow embedding of the authentication and credential-vault core of the
`min_project_secure_python_web_api` repository, together with proofs about
its behaviour.

Sources embedded:
- `app/config.py`        : the `Settings` object (fixed test configuration).
- `app/security.py`      : password hashing, JWT access/refresh token codec
                           (`create_access_token`, `create_refresh_token`,
                           `verify_token`), account-guard operations
                           (`is_user_locked`, `lock_user_account`,
                           `increment_failed_login_attempts`,
                           `reset_failed_login_attempts`), refresh-token
                           store (`store_refresh_token`,
                           `revoke_refresh_token`).
- `app/routers/auth.py`  : the `/auth/login` and `/auth/refresh` endpoints.
- `app/oauth2_service.py`: the `OAuth2TokenManager` vault (`store_token`,
                           `get_token`, `get_decrypted_token`).

Modelling conventions:
- timestamps are `Nat` seconds; `datetime.now(timezone.utc)` becomes an
  explicit `now : Nat` argument; nullable timestamps are `Option Nat`;
- the database session is explicit state: each table is a `List` of rows
  threaded through the operations, committed rows being the returned list;
- bcrypt is modelled as a collision-free one-way tagging function (its
  cryptographic properties are out of scope for the claims considered);
- a JWT is a record of its claims plus the key it was signed with; `decode`
  succeeds exactly when the verification key equals the signing key and the
  `exp` claim has not passed, mirroring `jose.jwt.decode`;
- SHA-256 of a refresh token is modelled as an injective digest record;
- Fernet is modelled as an authenticated cipher: decryption with the wrong
  key, or of a corrupted ciphertext, fails; `cryptography.fernet.Fernet`
  raises `InvalidToken` on failure, which we model with `Except`;
- Python code that can raise is `Except`-valued; code that returns `None`
  on failure is `Option`-valued.
-/

namespace SecureApi

/-! ### Configuration (`app/config.py`) -/

structure Settings where
  secretKey : String
  algorithm : String
  accessTokenExpireMinutes : Nat
  refreshTokenExpireDays : Nat
  bcryptRounds : Nat
deriving DecidableEq, Repr

/-- Default settings instance from `app/config.py` (`settings = Settings()`). -/
def settings : Settings :=
  { secretKey := "test-secret-key-that-is-at-least-32-characters-long-for-testing"
    algorithm := "HS256"
    accessTokenExpireMinutes := 30
    refreshTokenExpireDays := 7
    bcryptRounds := 4 }

/-! ### Password hashing (`app/security.py`, `pwd_context`) -/

/-- Model of `pwd_context.hash` (bcrypt): an abstract one-way, collision-free
digest of the password. -/
def get_password_hash (password : String) : String :=
  "bcrypt$" ++ password

/-- Model of `pwd_context.verify`: a candidate verifies against a digest
exactly when the digest is the hash of the candidate. -/
def verify_password (plain hashed : String) : Bool :=
  hashed == get_password_hash plain

/-! ### JWT codec (`app/security.py`) -/

/-- Claim set of a JWT as used by this application.  `typ` is the `"type"`
claim (`type` is a Lean keyword); absent claims are `none`, matching
`payload.get(...)` returning `None`. -/
structure JwtPayload where
  sub : Option String := none
  userId : Option Int := none
  typ : Option String := none
  jti : Option String := none
  exp : Nat
deriving DecidableEq, Repr

/-- A signed JWT: its payload together with the symmetric key and algorithm it
was signed with (an HMAC signature is determined by, and checkable against,
exactly these). -/
structure Jwt where
  payload : JwtPayload
  signedWith : String
  alg : String
deriving DecidableEq, Repr

/-- Model of `jose.jwt.encode`. -/
def jwtEncode (payload : JwtPayload) (key : String) (alg : String) : Jwt :=
  ⟨payload, key, alg⟩

/-- Model of `jose.jwt.decode`: succeeds iff the signature verifies under
`key`/`alg` and the `exp` claim has not passed (`jose` raises
`ExpiredSignatureError` when `exp < now`); any failure raises `JWTError`,
which `verify_token` turns into `None`, so we fold it into `Option` here. -/
def jwtDecode (token : Jwt) (key : String) (alg : String) (now : Nat) :
    Option JwtPayload :=
  if token.signedWith = key ∧ token.alg = alg ∧ now ≤ token.payload.exp then
    some token.payload
  else
    none

/-- The `data` dict passed to `create_access_token` by its call sites, always
`{"sub": username, "user_id": id}`. -/
structure AccessTokenData where
  sub : String
  userId : Int
deriving DecidableEq, Repr

/-- Embedding of `create_access_token` (`app/security.py` lines 35-51).
`expiresDelta` is the optional `expires_delta` in seconds. -/
def create_access_token (data : AccessTokenData) (now : Nat)
    (expiresDelta : Option Nat) : Jwt :=
  let expire :=
    match expiresDelta with
    | some d => now + d
    | none => now + settings.accessTokenExpireMinutes * 60
  jwtEncode
    { sub := some data.sub, userId := some data.userId,
      typ := some "access", exp := expire }
    settings.secretKey settings.algorithm

/-- Embedding of `create_refresh_token` (`app/security.py` lines 54-67).
The random `jti` (`secrets.token_urlsafe(32)`) is an explicit argument.
Note the claim set: `user_id`, `type`, `jti`, `exp` — no `sub` claim. -/
def create_refresh_token (userId : Int) (jti : String) (now : Nat) : Jwt :=
  jwtEncode
    { userId := some userId, typ := some "refresh", jti := some jti,
      exp := now + settings.refreshTokenExpireDays * 86400 }
    settings.secretKey settings.algorithm

/-- `TokenData` schema (`app/schemas.py`): the result of a successful
`verify_token`, which always populates both fields. -/
structure TokenData where
  username : String
  userId : Int
deriving DecidableEq, Repr

/-- Embedding of `verify_token` (`app/security.py` lines 70-90): decode, check
the `type` claim against `tokenType`, then require both `sub` and `user_id`
claims to be present. -/
def verify_token (token : Jwt) (tokenType : String) (now : Nat) :
    Option TokenData :=
  match jwtDecode token settings.secretKey settings.algorithm now with
  | none => none
  | some payload =>
    if payload.typ ≠ some tokenType then none
    else
      match payload.sub, payload.userId with
      | some username, some userId => some ⟨username, userId⟩
      | some _, none => none
      | none, _ => none

/-- Model of `hashlib.sha256(...).hexdigest()` applied to a serialized token:
an injective digest (SHA-256 treated as collision-free). -/
structure Sha256Digest where
  preimage : Jwt
deriving DecidableEq, Repr

/-- Embedding of `hash_refresh_token` (`app/security.py` lines 93-95). -/
def hash_refresh_token (token : Jwt) : Sha256Digest :=
  ⟨token⟩

/-! ### Users and the account guard (`app/models.py`, `app/security.py`) -/

/-- The `User` row fields relevant to authentication
(`app/models.py` lines 9-41). -/
structure UserRec where
  id : Int
  username : String
  email : String
  hashedPassword : String
  isActive : Bool := true
  isVerified : Bool := false
  failedLoginAttempts : Nat := 0
  lockedUntil : Option Nat := none
  lastLogin : Option Nat := none
deriving DecidableEq, Repr

/-- Embedding of `get_user_by_username` (`app/security.py` lines 108-110). -/
def get_user_by_username (db : List UserRec) (username : String) :
    Option UserRec :=
  db.find? (fun u => u.username == username)

/-- Embedding of `get_user_by_id` (`app/security.py` lines 113-115). -/
def get_user_by_id (db : List UserRec) (userId : Int) : Option UserRec :=
  db.find? (fun u => u.id == userId)

/-- Embedding of `is_user_locked` (`app/security.py` lines 118-122). -/
def is_user_locked (user : UserRec) (now : Nat) : Bool :=
  match user.lockedUntil with
  | none => false
  | some t => now < t

/-- Embedding of `lock_user_account` (`app/security.py` lines 125-131);
`lockDurationMinutes` defaults to 30 in the source. -/
def lock_user_account (user : UserRec) (now : Nat)
    (lockDurationMinutes : Nat := 30) : UserRec :=
  { user with
    lockedUntil := some (now + lockDurationMinutes * 60)
    failedLoginAttempts := 0 }

/-- Embedding of `increment_failed_login_attempts`
(`app/security.py` lines 134-142). -/
def increment_failed_login_attempts (user : UserRec) (now : Nat) : UserRec :=
  let user' := { user with failedLoginAttempts := user.failedLoginAttempts + 1 }
  if 5 ≤ user'.failedLoginAttempts then lock_user_account user' now
  else user'

/-- Embedding of `reset_failed_login_attempts`
(`app/security.py` lines 145-150). -/
def reset_failed_login_attempts (user : UserRec) (now : Nat) : UserRec :=
  { user with
    failedLoginAttempts := 0
    lockedUntil := none
    lastLogin := some now }

/-- One recorded invocation of `verify_password`, used to state temporal
properties about when credential comparison happens. -/
structure CredCheck where
  plain : String
  hashed : String
  result : Bool
deriving DecidableEq, Repr

/-- Embedding of `authenticate_user` (`app/security.py` lines 98-105),
instrumented with the list of `verify_password` invocations the run performs
(in order). -/
def authenticate_user (db : List UserRec) (username password : String) :
    Option UserRec × List CredCheck :=
  match get_user_by_username db username with
  | none => (none, [])
  | some user =>
    let check : CredCheck :=
      ⟨password, user.hashedPassword,
        verify_password password user.hashedPassword⟩
    if ¬ verify_password password user.hashedPassword then (none, [check])
    else (some user, [check])

/-! ### Refresh-token store (`app/models.py`, `app/security.py`) -/

/-- The `RefreshToken` row fields relevant to the claims
(`app/models.py` lines 44-65). -/
structure RefreshTokenRow where
  userId : Int
  tokenHash : Sha256Digest
  expiresAt : Nat
  isRevoked : Bool := false
deriving DecidableEq, Repr

/-- Embedding of `store_refresh_token` (`app/security.py` lines 153-171):
insert a new row keyed by the token's hash. -/
def store_refresh_token (db : List RefreshTokenRow) (userId : Int)
    (token : Jwt) (now : Nat) : List RefreshTokenRow :=
  db ++ [{ userId := userId
           tokenHash := hash_refresh_token token
           expiresAt := now + settings.refreshTokenExpireDays * 86400 }]

/-- Replace the first element satisfying `p` with its image under `f`
(the ORM pattern `query(...).first()` followed by attribute mutation and
`commit`). -/
def updateFirst {α : Type} (p : α → Bool) (f : α → α) : List α → List α
  | [] => []
  | r :: rs => if p r then f r :: rs else r :: updateFirst p f rs

/-- Row predicate of the `revoke_refresh_token` query: matching hash and not
yet revoked. -/
def revokeMatch (h : Sha256Digest) (r : RefreshTokenRow) : Bool :=
  r.tokenHash == h && !r.isRevoked

/-- Embedding of `revoke_refresh_token` (`app/security.py` lines 174-190):
look up the first non-revoked row with the token's hash; if found mark it
revoked and return `true`, else return `false` leaving the store unchanged. -/
def revoke_refresh_token (db : List RefreshTokenRow) (token : Jwt) :
    Bool × List RefreshTokenRow :=
  match db.find? (revokeMatch (hash_refresh_token token)) with
  | some _ =>
    (true, updateFirst (revokeMatch (hash_refresh_token token))
      (fun r => { r with isRevoked := true }) db)
  | none => (false, db)

/-! ### The `/auth/login` and `/auth/refresh` endpoints
(`app/routers/auth.py`) -/

/-- Outcome of the `login` endpoint: success carries the issued tokens; the
error cases are HTTP 401 / 403 / 423 respectively. -/
inductive LoginResult where
  | success (accessToken : Jwt) (refreshToken : Jwt)
  | invalidCredentials
  | inactiveUser
  | accountLocked
deriving DecidableEq, Repr

/-- Whether a login outcome is a success. -/
def LoginResult.isSuccess : LoginResult → Bool
  | .success _ _ => true
  | _ => false

/-- Full state returned by a `login` run: the HTTP-level result, the committed
user and refresh-token tables, and the `verify_password` invocations the run
performed. -/
structure LoginOutcome where
  result : LoginResult
  users : List UserRec
  refreshDb : List RefreshTokenRow
  credChecks : List CredCheck
deriving DecidableEq, Repr

/-- Replace the first user row with the given id. -/
def updateUser (db : List UserRec) (id : Int) (u' : UserRec) : List UserRec :=
  updateFirst (fun u => u.id == id) (fun _ => u') db

/-- Embedding of the `login` endpoint (`app/routers/auth.py` lines 86-163):
`authenticate_user`, then the `is_active` check, then the `is_user_locked`
check, then `reset_failed_login_attempts` and token issuance.  The failure
branches commit nothing (in particular, `increment_failed_login_attempts` is
nowhere invoked).  `jti` is the random identifier drawn inside
`create_refresh_token`. -/
def login (users : List UserRec) (refreshDb : List RefreshTokenRow)
    (username password : String) (now : Nat) (jti : String) : LoginOutcome :=
  match authenticate_user users username password with
  | (none, checks) => ⟨.invalidCredentials, users, refreshDb, checks⟩
  | (some user, checks) =>
    if ¬ user.isActive then ⟨.inactiveUser, users, refreshDb, checks⟩
    else if is_user_locked user now then
      ⟨.accountLocked, users, refreshDb, checks⟩
    else
      let user' := reset_failed_login_attempts user now
      let users' := updateUser users user.id user'
      let access := create_access_token ⟨user.username, user.id⟩ now
        (some (settings.accessTokenExpireMinutes * 60))
      let refresh := create_refresh_token user.id jti now
      let refreshDb' := store_refresh_token refreshDb user.id refresh now
      ⟨.success access refresh, users', refreshDb', checks⟩

/-- Embedding of the `refresh_token` endpoint
(`app/routers/auth.py` lines 166-217): verify the presented token as a
refresh token, look the user up by id, require the user active, and issue a
new access token; every failure is HTTP 401 (`none`).  The refresh-token
store is not consulted. -/
def refreshEndpoint (users : List UserRec) (token : Jwt) (now : Nat) :
    Option Jwt :=
  match verify_token token "refresh" now with
  | none => none
  | some tokenData =>
    match get_user_by_id users tokenData.userId with
    | none => none
    | some user =>
      if ¬ user.isActive then none
      else
        some (create_access_token ⟨user.username, user.id⟩ now
          (some (settings.accessTokenExpireMinutes * 60)))

/-! ### OAuth2 vault (`app/models.py`, `app/schemas.py`,
`app/oauth2_service.py`) -/

/-- Model of a Fernet ciphertext: either a well-formed encryption of some
plaintext under some key, or bytes that are not a valid Fernet token at all. -/
inductive Ciphertext where
  | enc (key : String) (plaintext : String)
  | corrupted (raw : String)
deriving DecidableEq, Repr

/-- Failure raised by `cryptography.fernet.Fernet.decrypt`. -/
inductive FernetError where
  | invalidToken
deriving DecidableEq, Repr

/-- Model of `Fernet.encrypt` under key `key`
(`OAuth2TokenManager._encrypt_token`). -/
def fernetEncrypt (key plaintext : String) : Ciphertext :=
  .enc key plaintext

/-- Model of `Fernet.decrypt` (`OAuth2TokenManager._decrypt_token`):
authenticated decryption fails on a wrong key or a corrupted ciphertext by
raising `InvalidToken`, modelled as `Except.error`. -/
def fernetDecrypt (key : String) (c : Ciphertext) : Except FernetError String :=
  match c with
  | .enc k p => if k = key then .ok p else .error .invalidToken
  | .corrupted _ => .error .invalidToken

/-- `OAuth2TokenCreate` schema (`app/schemas.py` lines 132-141). -/
structure OAuth2TokenCreate where
  serviceName : String
  accessToken : String
  refreshToken : Option String := none
  tokenType : String := "Bearer"
  expiresIn : Option Nat := none
  scope : String
  clientId : Option String := none
deriving DecidableEq, Repr

/-- The `OAuth2Token` row fields relevant to the claims
(`app/models.py` lines 93-127). -/
structure OAuth2TokenRow where
  id : Nat
  userId : Int
  serviceName : String
  accessToken : Ciphertext
  refreshToken : Option Ciphertext := none
  tokenType : String := "Bearer"
  expiresAt : Option Nat := none
  scope : String
  clientId : Option String := none
  isActive : Bool := true
  updatedAt : Nat
  lastUsedAt : Option Nat := none
deriving DecidableEq, Repr

/-- The query predicate shared by `store_token` / `get_token` /
`revoke_token`: active row for the given (user, service) pair. -/
def activeMatch (userId : Int) (serviceName : String)
    (r : OAuth2TokenRow) : Bool :=
  r.userId == userId && r.serviceName == serviceName && r.isActive

/-- Number of active vault rows for a (user, service) pair. -/
def countActive (db : List OAuth2TokenRow) (userId : Int)
    (serviceName : String) : Nat :=
  (db.filter (activeMatch userId serviceName)).length

/-- Whether `needle` occurs as a leading segment of `hay`. -/
def leadSeg : List Char → List Char → Bool
  | [], _ => true
  | _ :: _, [] => false
  | a :: as, b :: bs => a == b && leadSeg as bs

/-- Whether `needle` occurs as a contiguous segment of `hay` (SQL
`LIKE %needle%`, the semantics of `column.contains`). -/
def hasSeg (needle : List Char) : List Char → Bool
  | [] => leadSeg needle []
  | b :: bs => leadSeg needle (b :: bs) || hasSeg needle bs

/-- The optional scope narrowing of `get_token`
(`OAuth2Token.scope.contains(scope)`). -/
def scopeFilter (scopeQ : Option String) (r : OAuth2TokenRow) : Bool :=
  match scopeQ with
  | none => true
  | some s => hasSeg s.data r.scope.data

/-- The expiry computation of `store_token`
(`app/oauth2_service.py` lines 55-60): `expires_at` starts as `None` and is
only set when `token_data.expires_in` is truthy — so both a missing
`expires_in` and the schema-valid value 0 leave the expiry unset. -/
def computeExpiry (expiresIn : Option Nat) (now : Nat) : Option Nat :=
  match expiresIn with
  | none => none
  | some s => if s = 0 then none else some (now + s)

/-- The in-place field update `store_token` applies to an existing active row
(`app/oauth2_service.py` lines 62-75).  The guard
`if token_data.refresh_token:` is a truthiness test, so both a missing
refresh token and the empty string leave the stored refresh-token ciphertext
as it was. -/
def applyUpdate (key : String) (td : OAuth2TokenCreate)
    (expiresAt : Option Nat) (now : Nat) (r : OAuth2TokenRow) :
    OAuth2TokenRow :=
  { r with
    accessToken := fernetEncrypt key td.accessToken
    refreshToken :=
      match td.refreshToken with
      | some rt => if rt = "" then r.refreshToken else some (fernetEncrypt key rt)
      | none => r.refreshToken
    tokenType := td.tokenType
    expiresAt := expiresAt
    scope := td.scope
    clientId := td.clientId
    updatedAt := now
    lastUsedAt := some now }

/-- The fresh active row `store_token` inserts when no active row exists for
the (user, service) pair (`app/oauth2_service.py` lines 89-107).  Both the
refresh-token guard (`... if token_data.refresh_token else None`) and the
expiry computation are truthiness tests, so an empty-string refresh token is
stored as `None` and `expires_in = 0` leaves the expiry unset. -/
def freshRow (key : String) (userId : Int) (td : OAuth2TokenCreate)
    (now newId : Nat) : OAuth2TokenRow :=
  { id := newId
    userId := userId
    serviceName := td.serviceName
    accessToken := fernetEncrypt key td.accessToken
    refreshToken :=
      match td.refreshToken with
      | some rt => if rt = "" then none else some (fernetEncrypt key rt)
      | none => none
    tokenType := td.tokenType
    expiresAt := computeExpiry td.expiresIn now
    scope := td.scope
    clientId := td.clientId
    isActive := true
    updatedAt := now
    lastUsedAt := some now }

/-- Embedding of `OAuth2TokenManager.store_token`
(`app/oauth2_service.py` lines 38-118): if an active row exists for the
(user, service) pair, update it in place; otherwise insert a fresh active
row.  Returns the committed row together with the new table.  `newId` is the
primary key the database would assign on insert. -/
def store_token (key : String) (db : List OAuth2TokenRow) (userId : Int)
    (td : OAuth2TokenCreate) (now : Nat) (newId : Nat) :
    OAuth2TokenRow × List OAuth2TokenRow :=
  match db.find? (activeMatch userId td.serviceName) with
  | some existing =>
    (applyUpdate key td (computeExpiry td.expiresIn now) now existing,
     updateFirst (activeMatch userId td.serviceName)
       (applyUpdate key td (computeExpiry td.expiresIn now) now) db)
  | none =>
    (freshRow key userId td now newId, db ++ [freshRow key userId td now newId])

/-- Lazy expiry test of `get_token`: `token.expires_at and token.expires_at <
now`. -/
def isExpiredAt (expiresAt : Option Nat) (now : Nat) : Bool :=
  match expiresAt with
  | none => false
  | some t => t < now

/-- The compound query filter of `get_token`: active row for the pair,
narrowed by scope when a scope is given. -/
def vaultQuery (userId : Int) (serviceName : String) (scope : Option String)
    (r : OAuth2TokenRow) : Bool :=
  activeMatch userId serviceName r && scopeFilter scope r

/-- Embedding of `OAuth2TokenManager.get_token`
(`app/oauth2_service.py` lines 120-153): first active row for the pair
(narrowed by scope when given); if it is expired, flip it inactive and return
nothing; otherwise stamp `last_used_at` and return it. -/
def get_token (db : List OAuth2TokenRow) (userId : Int) (serviceName : String)
    (scope : Option String) (now : Nat) :
    Option OAuth2TokenRow × List OAuth2TokenRow :=
  match db.find? (vaultQuery userId serviceName scope) with
  | none => (none, db)
  | some token =>
    if isExpiredAt token.expiresAt now then
      (none, updateFirst (vaultQuery userId serviceName scope)
        (fun r => { r with isActive := false }) db)
    else
      (some { token with lastUsedAt := some now },
       updateFirst (vaultQuery userId serviceName scope)
         (fun r => { r with lastUsedAt := some now }) db)

/-- Embedding of `OAuth2TokenManager.get_decrypted_token`
(`app/oauth2_service.py` lines 155-162): the same lookup, then
`_decrypt_token` on the access-token ciphertext.  The source has no
`try/except` around the decryption, so a decryption failure propagates as an
exception (`Except.error`) rather than producing `None`. -/
def get_decrypted_token (key : String) (db : List OAuth2TokenRow)
    (userId : Int) (serviceName : String) (scope : Option String) (now : Nat) :
    Except FernetError (Option String) × List OAuth2TokenRow :=
  match get_token db userId serviceName scope now with
  | (none, db') => (.ok none, db')
  | (some token, db') =>
    match fernetDecrypt key token.accessToken with
    | .ok s => (.ok (some s), db')
    | .error e => (.error e, db')

/-! ### Shared helper lemmas -/

theorem find?_append_left_none {α : Type} (p : α → Bool) (l₁ l₂ : List α)
    (h : ∀ x ∈ l₁, p x = false) : (l₁ ++ l₂).find? p = l₂.find? p := by
  induction l₁ with
  | nil => rfl
  | cons a l ih =>
    have ha : p a = false := h a (List.mem_cons_self a l)
    rw [List.cons_append, List.find?_cons_of_neg _ (by simp [ha])]
    exact ih (fun x hx => h x (List.mem_cons_of_mem a hx))

theorem updateFirst_append_left {α : Type} (p : α → Bool) (f : α → α)
    (l₁ l₂ : List α) (h : ∀ x ∈ l₁, p x = false) :
    updateFirst p f (l₁ ++ l₂) = l₁ ++ updateFirst p f l₂ := by
  induction l₁ with
  | nil => rfl
  | cons a l ih =>
    have ha : p a = false := h a (List.mem_cons_self a l)
    rw [List.cons_append]
    show (if p a then f a :: (l ++ l₂) else a :: updateFirst p f (l ++ l₂))
      = a :: (l ++ updateFirst p f l₂)
    rw [ha]
    simp only [Bool.false_eq_true, if_false, List.cons.injEq, true_and]
    exact ih (fun x hx => h x (List.mem_cons_of_mem a hx))

theorem updateFirst_cons_pos {α : Type} (p : α → Bool) (f : α → α)
    (a : α) (l : List α) (ha : p a = true) :
    updateFirst p f (a :: l) = f a :: l := by
  show (if p a then f a :: l else a :: updateFirst p f l) = f a :: l
  rw [ha]
  simp

theorem filter_length_updateFirst {α : Type} (p : α → Bool) (f : α → α)
    (l : List α) (hf : ∀ x, p x = true → p (f x) = true) :
    ((updateFirst p f l).filter p).length = (l.filter p).length := by
  induction l with
  | nil => rfl
  | cons a l ih =>
    by_cases ha : p a = true
    · rw [updateFirst_cons_pos p f a l ha]
      simp [List.filter_cons, ha, hf a ha]
    · have ha' : p a = false := by simpa using ha
      show ((if p a then f a :: l else a :: updateFirst p f l).filter p).length
        = ((a :: l).filter p).length
      rw [ha']
      simp [List.filter_cons, ha', ih]

theorem find?_updateFirst {α : Type} (p : α → Bool) (f : α → α)
    (l : List α) (r : α) (h : l.find? p = some r) (hfr : p (f r) = true) :
    (updateFirst p f l).find? p = some (f r) := by
  induction l with
  | nil => simp [List.find?] at h
  | cons a l ih =>
    by_cases ha : p a = true
    · rw [List.find?_cons_of_pos l ha] at h
      injection h with h
      subst h
      rw [updateFirst_cons_pos p f a l ha]
      exact List.find?_cons_of_pos l hfr
    · have ha' : p a = false := by simpa using ha
      rw [List.find?_cons_of_neg l ha] at h
      show ((if p a then f a :: l else a :: updateFirst p f l).find? p)
        = some (f r)
      rw [ha']
      simp only [Bool.false_eq_true, if_false]
      rw [List.find?_cons_of_neg _ ha]
      exact ih h

theorem countActive_eq_zero_of_find?_none (db : List OAuth2TokenRow)
    (uid : Int) (svc : String)
    (h : db.find? (activeMatch uid svc) = none) :
    countActive db uid svc = 0 := by
  unfold countActive
  rw [List.length_eq_zero, List.filter_eq_nil_iff]
  exact List.find?_eq_none.mp h

theorem one_le_countActive_of_find?_some (db : List OAuth2TokenRow)
    (uid : Int) (svc : String) (r : OAuth2TokenRow)
    (h : db.find? (activeMatch uid svc) = some r) :
    1 ≤ countActive db uid svc := by
  have hm : r ∈ db.filter (activeMatch uid svc) :=
    List.mem_filter.mpr ⟨List.mem_of_find?_eq_some h, List.find?_some h⟩
  exact List.length_pos.mpr (List.ne_nil_of_mem hm)

theorem activeMatch_applyUpdate (uid : Int) (svc : String) (key : String)
    (td : OAuth2TokenCreate) (e : Option Nat) (now : Nat)
    (r : OAuth2TokenRow) :
    activeMatch uid svc (applyUpdate key td e now r) = activeMatch uid svc r :=
  rfl

theorem activeMatch_freshRow (key : String) (uid : Int)
    (td : OAuth2TokenCreate) (now newId : Nat) :
    activeMatch uid td.serviceName (freshRow key uid td now newId) = true := by
  simp [activeMatch, freshRow]

theorem store_token_eq_update (key : String) (db : List OAuth2TokenRow)
    (uid : Int) (td : OAuth2TokenCreate) (now newId : Nat)
    (r : OAuth2TokenRow)
    (hfind : db.find? (activeMatch uid td.serviceName) = some r) :
    store_token key db uid td now newId =
      (applyUpdate key td (computeExpiry td.expiresIn now) now r,
       updateFirst (activeMatch uid td.serviceName)
         (applyUpdate key td (computeExpiry td.expiresIn now) now) db) := by
  unfold store_token
  rw [hfind]

theorem store_token_eq_insert (key : String) (db : List OAuth2TokenRow)
    (uid : Int) (td : OAuth2TokenCreate) (now newId : Nat)
    (hfind : db.find? (activeMatch uid td.serviceName) = none) :
    store_token key db uid td now newId =
      (freshRow key uid td now newId, db ++ [freshRow key uid td now newId]) := by
  unfold store_token
  rw [hfind]

/-- After a `store_token` call, exactly one active vault row exists for the
(user, service) pair — provided the table respected the at-most-one-active
invariant beforehand. -/
theorem store_token_countActive (key : String) (db : List OAuth2TokenRow)
    (uid : Int) (td : OAuth2TokenCreate) (now newId : Nat)
    (hinv : countActive db uid td.serviceName ≤ 1) :
    countActive (store_token key db uid td now newId).2 uid td.serviceName
      = 1 := by
  cases hfind : db.find? (activeMatch uid td.serviceName) with
  | none =>
    have h0 := countActive_eq_zero_of_find?_none db uid td.serviceName hfind
    rw [store_token_eq_insert key db uid td now newId hfind]
    unfold countActive at h0 ⊢
    rw [List.filter_append, List.length_append, h0]
    simp [List.filter_cons, activeMatch_freshRow]
  | some r =>
    have h1 := one_le_countActive_of_find?_some db uid td.serviceName r hfind
    have heq := filter_length_updateFirst (activeMatch uid td.serviceName)
      (applyUpdate key td (computeExpiry td.expiresIn now) now) db
      (fun x hx => by rw [activeMatch_applyUpdate]; exact hx)
    rw [store_token_eq_update key db uid td now newId r hfind]
    unfold countActive at h1 hinv ⊢
    rw [heq]
    omega

/-- The table committed by `store_token` has the returned row as its first
active row for the (user, service) pair. -/
theorem store_token_find? (key : String) (db : List OAuth2TokenRow)
    (uid : Int) (td : OAuth2TokenCreate) (now newId : Nat) :
    (store_token key db uid td now newId).2.find?
        (activeMatch uid td.serviceName)
      = some (store_token key db uid td now newId).1 := by
  cases hfind : db.find? (activeMatch uid td.serviceName) with
  | none =>
    rw [store_token_eq_insert key db uid td now newId hfind]
    have hall : ∀ x ∈ db, activeMatch uid td.serviceName x = false :=
      fun x hx => by simpa using List.find?_eq_none.mp hfind x hx
    rw [find?_append_left_none _ db _ hall]
    exact List.find?_cons_of_pos _ (activeMatch_freshRow key uid td now newId)
  | some r =>
    rw [store_token_eq_update key db uid td now newId r hfind]
    exact find?_updateFirst _ _ db r hfind
      (by rw [activeMatch_applyUpdate]; exact List.find?_some hfind)

/-- The row committed by `store_token` carries the incoming call's access
token (encrypted), scope, token type, client id and computed expiry. -/
theorem store_token_fields (key : String) (db : List OAuth2TokenRow)
    (uid : Int) (td : OAuth2TokenCreate) (now newId : Nat) :
    (store_token key db uid td now newId).1.accessToken
        = fernetEncrypt key td.accessToken ∧
    (store_token key db uid td now newId).1.scope = td.scope ∧
    (store_token key db uid td now newId).1.tokenType = td.tokenType ∧
    (store_token key db uid td now newId).1.clientId = td.clientId ∧
    (store_token key db uid td now newId).1.expiresAt
        = computeExpiry td.expiresIn now := by
  cases hfind : db.find? (activeMatch uid td.serviceName) with
  | none =>
    rw [store_token_eq_insert key db uid td now newId hfind]
    simp [freshRow]
  | some r =>
    rw [store_token_eq_update key db uid td now newId r hfind]
    simp [applyUpdate]

theorem vaultQuery_none (uid : Int) (svc : String) :
    vaultQuery uid svc none = activeMatch uid svc := by
  funext r
  simp [vaultQuery, scopeFilter]

/-- Round-trip: fetching (decrypted, no scope narrowing) right after a store
with no expiry yields the stored plaintext. -/
theorem get_decrypted_after_store (key : String) (db : List OAuth2TokenRow)
    (uid : Int) (td : OAuth2TokenCreate) (now nowF newId : Nat)
    (hexp : td.expiresIn = none) :
    (get_decrypted_token key (store_token key db uid td now newId).2
        uid td.serviceName none nowF).1 = .ok (some td.accessToken) := by
  have hf := store_token_find? key db uid td now newId
  obtain ⟨hacc, -, -, -, hexpAt⟩ := store_token_fields key db uid td now newId
  rw [hexp] at hexpAt
  simp only [computeExpiry] at hexpAt
  unfold get_decrypted_token get_token
  rw [vaultQuery_none, hf]
  simp [hexpAt, isExpiredAt, hacc, fernetDecrypt, fernetEncrypt]

/-- A token issued by `create_refresh_token` carries no `sub` claim, and
`verify_token` demands one, so verification of such a token always fails. -/
theorem verify_refresh_eq_none (userId : Int) (jti : String)
    (nowIssue nowVerify : Nat) (tokenType : String) :
    verify_token (create_refresh_token userId jti nowIssue) tokenType nowVerify
      = none := by
  unfold verify_token create_refresh_token jwtEncode jwtDecode
  by_cases h :
      nowVerify ≤ nowIssue + settings.refreshTokenExpireDays * 86400
  · simp [h]
  · simp [h]

/-! ### Theorems for the claims -/

/-- Claim C2: for every refresh token produced by `create_refresh_token`
(correctly signed, not yet expired), `verify_token(token, "refresh")` should
return the token's claims.  The code disagrees: `verify_token` also requires
a `sub` claim, which refresh tokens never carry, so verification returns
`none` for every codec-issued refresh token — at any verification time,
expired or not. -/
theorem C2_refresh_token_never_verifies (userId : Int) (jti : String)
    (nowIssue nowVerify : Nat) :
    verify_token (create_refresh_token userId jti nowIssue) "refresh" nowVerify
      = none :=
  verify_refresh_eq_none userId jti nowIssue nowVerify "refresh"

/-- Claim C8: a valid access token with claims `{sub, user_id, type="access"}`
verifies under expected type `"access"` to its original `(username, user_id)`
pair, and verification of the same token under expected type `"refresh"`
returns `none` because the `type` claim mismatches. -/
theorem C8_access_token_verify (username : String) (userId : Int)
    (now : Nat) (delta : Option Nat) (nowV : Nat)
    (h : nowV ≤ (create_access_token ⟨username, userId⟩ now delta).payload.exp) :
    verify_token (create_access_token ⟨username, userId⟩ now delta) "access" nowV
      = some ⟨username, userId⟩ ∧
    verify_token (create_access_token ⟨username, userId⟩ now delta) "refresh" nowV
      = none := by
  cases delta with
  | none =>
    simp only [create_access_token, jwtEncode] at h
    unfold verify_token create_access_token jwtEncode jwtDecode
    simp_all
  | some d =>
    simp only [create_access_token, jwtEncode] at h
    unfold verify_token create_access_token jwtEncode jwtDecode
    simp_all

/-- Witness for C8 at a concrete token. -/
theorem C8_access_token_verify_witness :
    verify_token (create_access_token ⟨"alice", (1 : Int)⟩ 0 (some 1800))
        "access" 60 = some ⟨"alice", 1⟩ ∧
    verify_token (create_access_token ⟨"alice", (1 : Int)⟩ 0 (some 1800))
        "refresh" 60 = none :=
  C8_access_token_verify "alice" 1 0 (some 1800) 60 (by decide)

/-- Claim C9: the failed-login counter stays in `[0, 4]` after each
account-guard operation, and an increment that would reach 5 locks the
account in the same step, resetting the counter to 0. -/
theorem C9_failed_attempts_bounded (u : UserRec) (now lockMin : Nat) :
    (increment_failed_login_attempts u now).failedLoginAttempts ≤ 4 ∧
    (lock_user_account u now lockMin).failedLoginAttempts = 0 ∧
    (reset_failed_login_attempts u now).failedLoginAttempts = 0 ∧
    (4 ≤ u.failedLoginAttempts →
      (increment_failed_login_attempts u now).lockedUntil
          = some (now + 30 * 60) ∧
      (increment_failed_login_attempts u now).failedLoginAttempts = 0) := by
  unfold increment_failed_login_attempts lock_user_account
    reset_failed_login_attempts
  by_cases h : 5 ≤ u.failedLoginAttempts + 1
  · simp [h]
  · simp [h]
    omega

/-- Witness for C9 at a user whose counter stands at 4. -/
theorem C9_failed_attempts_bounded_witness :
    (increment_failed_login_attempts
        { id := 1, username := "u", email := "u@example.com",
          hashedPassword := "h", failedLoginAttempts := 4 } 0).lockedUntil
      = some 1800 ∧
    (increment_failed_login_attempts
        { id := 1, username := "u", email := "u@example.com",
          hashedPassword := "h", failedLoginAttempts := 4 } 0).failedLoginAttempts
      = 0 := by
  have h := C9_failed_attempts_bounded
    { id := 1, username := "u", email := "u@example.com",
      hashedPassword := "h", failedLoginAttempts := 4 } 0 30
  exact h.2.2.2 (by decide)

/-! ### Concrete scenario data -/

/-- Password of the lockout-scenario user. -/
def alicePassword : String := "CorrectHorse9!"

/-- Lockout-scenario user: active, counter at 0, not locked. -/
def alice : UserRec :=
  { id := 1, username := "alice", email := "alice@example.com",
    hashedPassword := get_password_hash alicePassword }

/-- `n` consecutive failed login attempts (wrong password) against the user
table, threading the committed state from one attempt to the next. -/
def iterFailedLogin (users : List UserRec) : Nat → List UserRec
  | 0 => users
  | n + 1 =>
    (login (iterFailedLogin users n) [] "alice" "wrongpassword" 0 "jti").users

/-- Claim C1: five consecutive failed logins should lock the account and a
sixth attempt with correct credentials should be rejected with
`AccountLocked`.  The code disagrees: the `login` failure branch never calls
`increment_failed_login_attempts`, so after five wrong-password attempts the
user row is completely unchanged (counter 0, no lock) and a sixth attempt
with the correct password succeeds. -/
theorem C1_lockout_never_triggers :
    (login (iterFailedLogin [alice] 5) [] "alice" "wrongpassword" 0 "jti").result
      = .invalidCredentials ∧
    iterFailedLogin [alice] 5 = [alice] ∧
    alice.failedLoginAttempts = 0 ∧
    alice.lockedUntil = none ∧
    (login (iterFailedLogin [alice] 5) [] "alice" alicePassword 0 "jti").result.isSuccess
      = true := by
  decide

/-- A vault row whose stored access-token ciphertext is not a valid Fernet
token for any key (corrupted ciphertext). -/
def corruptedRow : OAuth2TokenRow :=
  { id := 1, userId := 1, serviceName := "github",
    accessToken := .corrupted "not-a-fernet-token",
    scope := "read:user", updatedAt := 0 }

/-- A vault row whose access token was encrypted under a different key than
the manager holds. -/
def wrongKeyRow : OAuth2TokenRow :=
  { id := 2, userId := 2, serviceName := "github",
    accessToken := fernetEncrypt "some-other-key" "plaintext",
    scope := "read:user", updatedAt := 0 }

/-- Claim C3: a vaulted token whose access-token ciphertext cannot be
decrypted should make `get_decrypted_token` return `none` and never raise.
The code disagrees: `get_decrypted_token` calls `_decrypt_token` with no
`try/except`, so `Fernet.decrypt` raises `InvalidToken` — the fetch ends in
an exception (`Except.error`), not in `none`, both for corrupted ciphertext
and for ciphertext under the wrong key. -/
theorem C3_decrypt_failure_propagates :
    (get_decrypted_token "vault-key" [corruptedRow] 1 "github" none 0).1
      = .error .invalidToken ∧
    (get_decrypted_token "vault-key" [wrongKeyRow] 2 "github" none 0).1
      = .error .invalidToken := by
  exact ⟨rfl, rfl⟩

/-- C4-scenario user: active, locked until time 1000, whose password is
`Str0ng!Pass`. -/
def lockedBob : UserRec :=
  { id := 2, username := "bob", email := "bob@example.com",
    hashedPassword := get_password_hash "Str0ng!Pass",
    lockedUntil := some 1000 }

/-- Counterexample to claim C4: a concrete login run against a locked user
performs a `verify_password` credential comparison (the recorded
`credChecks` list is non-empty), so the rejection does not happen before
credential comparison. -/
theorem C4_counterexample :
    is_user_locked lockedBob 0 = true ∧
    (login [lockedBob] [] "bob" "Str0ng!Pass" 0 "jti").result
      = .accountLocked ∧
    (login [lockedBob] [] "bob" "Str0ng!Pass" 0 "jti").credChecks ≠ [] := by
  decide

/-- Claim C4 as amended: a login against a locked, active user presenting
correct credentials is rejected with `AccountLocked`, but only after
credential comparison — the run performs exactly one `verify_password`
invocation before the lock-state check rejects it. -/
theorem C4_locked_rejected_after_password_check
    (users : List UserRec) (refreshDb : List RefreshTokenRow)
    (username password : String) (now : Nat) (jti : String) (user : UserRec)
    (hfind : get_user_by_username users username = some user)
    (hpw : verify_password password user.hashedPassword = true)
    (hactive : user.isActive = true)
    (hlocked : is_user_locked user now = true) :
    (login users refreshDb username password now jti).result = .accountLocked ∧
    (login users refreshDb username password now jti).credChecks
      = [⟨password, user.hashedPassword, true⟩] := by
  unfold login authenticate_user
  rw [hfind]
  simp [hpw, hactive, hlocked]

/-- Claim C5: storing for a (user, service) pair that already has an active
row updates that row in place rather than inserting a duplicate; two
sequential `store_token` calls for the same pair (starting from a table
satisfying the at-most-one-active invariant) leave exactly one active row,
and that row carries the second call's fields. -/
theorem C5_store_unique_active (key : String) (db : List OAuth2TokenRow)
    (uid : Int) (td₁ td₂ : OAuth2TokenCreate) (n₁ n₂ id₁ id₂ : Nat)
    (hsvc : td₂.serviceName = td₁.serviceName)
    (hinv : countActive db uid td₁.serviceName ≤ 1) :
    countActive
        (store_token key (store_token key db uid td₁ n₁ id₁).2 uid td₂ n₂ id₂).2
        uid td₁.serviceName = 1 ∧
    (store_token key (store_token key db uid td₁ n₁ id₁).2 uid td₂ n₂ id₂).2.find?
        (activeMatch uid td₁.serviceName)
      = some (store_token key (store_token key db uid td₁ n₁ id₁).2 uid td₂ n₂ id₂).1 ∧
    (store_token key (store_token key db uid td₁ n₁ id₁).2 uid td₂ n₂ id₂).1.accessToken
      = fernetEncrypt key td₂.accessToken ∧
    (store_token key (store_token key db uid td₁ n₁ id₁).2 uid td₂ n₂ id₂).1.scope
      = td₂.scope ∧
    (store_token key (store_token key db uid td₁ n₁ id₁).2 uid td₂ n₂ id₂).1.tokenType
      = td₂.tokenType ∧
    (store_token key (store_token key db uid td₁ n₁ id₁).2 uid td₂ n₂ id₂).1.clientId
      = td₂.clientId ∧
    (store_token key (store_token key db uid td₁ n₁ id₁).2 uid td₂ n₂ id₂).1.expiresAt
      = computeExpiry td₂.expiresIn n₂ := by
  have h1 := store_token_countActive key db uid td₁ n₁ id₁ hinv
  have hinv₂ : countActive (store_token key db uid td₁ n₁ id₁).2
      uid td₂.serviceName ≤ 1 := by
    rw [hsvc, h1]
  have h2 := store_token_countActive key (store_token key db uid td₁ n₁ id₁).2
    uid td₂ n₂ id₂ hinv₂
  have h3 := store_token_find? key (store_token key db uid td₁ n₁ id₁).2
    uid td₂ n₂ id₂
  have h4 := store_token_fields key (store_token key db uid td₁ n₁ id₁).2
    uid td₂ n₂ id₂
  rw [hsvc] at h2 h3
  exact ⟨h2, h3, h4.1, h4.2.1, h4.2.2.1, h4.2.2.2.1, h4.2.2.2.2⟩

/-- First store call of the C5/C6 vault scenario. -/
def tdA : OAuth2TokenCreate :=
  { serviceName := "github", accessToken := "A", scope := "read:user" }

/-- Second store call of the C5/C6 vault scenario. -/
def tdB : OAuth2TokenCreate :=
  { serviceName := "github", accessToken := "B", scope := "read:user" }

/-- Witness for C5 at the concrete store-A-then-store-B scenario. -/
theorem C5_store_unique_active_witness :
    countActive (store_token "k" (store_token "k" [] 1 tdA 0 1).2 1 tdB 5 2).2
        1 tdA.serviceName = 1 ∧
    (store_token "k" (store_token "k" [] 1 tdA 0 1).2 1 tdB 5 2).2.find?
        (activeMatch 1 tdA.serviceName)
      = some (store_token "k" (store_token "k" [] 1 tdA 0 1).2 1 tdB 5 2).1 ∧
    (store_token "k" (store_token "k" [] 1 tdA 0 1).2 1 tdB 5 2).1.accessToken
      = fernetEncrypt "k" tdB.accessToken ∧
    (store_token "k" (store_token "k" [] 1 tdA 0 1).2 1 tdB 5 2).1.scope
      = tdB.scope ∧
    (store_token "k" (store_token "k" [] 1 tdA 0 1).2 1 tdB 5 2).1.tokenType
      = tdB.tokenType ∧
    (store_token "k" (store_token "k" [] 1 tdA 0 1).2 1 tdB 5 2).1.clientId
      = tdB.clientId ∧
    (store_token "k" (store_token "k" [] 1 tdA 0 1).2 1 tdB 5 2).1.expiresAt
      = computeExpiry tdB.expiresIn 5 :=
  C5_store_unique_active "k" [] 1 tdA tdB 0 5 1 2 rfl (by decide)

/-- Claim C6: vault confidentiality round-trip — fetching decrypted right
after storing plaintext `X` for a pair (with no expiry set) yields exactly
`X`, and after store-`A`-then-store-`B` for the same pair the fetch yields
the second plaintext `B`. -/
theorem C6_vault_roundtrip (key : String) (db : List OAuth2TokenRow)
    (uid : Int) (td₁ td₂ : OAuth2TokenCreate) (n₁ n₂ n₃ n₄ id₁ id₂ : Nat)
    (hsvc : td₂.serviceName = td₁.serviceName)
    (hexp₁ : td₁.expiresIn = none) (hexp₂ : td₂.expiresIn = none) :
    (get_decrypted_token key (store_token key db uid td₁ n₁ id₁).2
        uid td₁.serviceName none n₃).1 = .ok (some td₁.accessToken) ∧
    (get_decrypted_token key
        (store_token key (store_token key db uid td₁ n₁ id₁).2 uid td₂ n₂ id₂).2
        uid td₁.serviceName none n₄).1 = .ok (some td₂.accessToken) := by
  constructor
  · exact get_decrypted_after_store key db uid td₁ n₁ n₃ id₁ hexp₁
  · have h := get_decrypted_after_store key (store_token key db uid td₁ n₁ id₁).2
      uid td₂ n₂ n₄ id₂ hexp₂
    rw [hsvc] at h
    exact h

/-- Witness for C6: `store(user=1, service="github", token="A")` then
`store(user=1, service="github", token="B")` then a decrypted fetch returns
`"B"` (and the single-store round-trip returns `"A"`). -/
theorem C6_vault_roundtrip_witness :
    (get_decrypted_token "k" (store_token "k" [] 1 tdA 0 1).2
        1 tdA.serviceName none 10).1 = .ok (some tdA.accessToken) ∧
    (get_decrypted_token "k"
        (store_token "k" (store_token "k" [] 1 tdA 0 1).2 1 tdB 5 2).2
        1 tdA.serviceName none 15).1 = .ok (some tdB.accessToken) :=
  C6_vault_roundtrip "k" [] 1 tdA tdB 0 5 10 15 1 2 rfl rfl rfl

/-- Claim C7: a refresh token issued by the codec is rejected at redemption
after `revoke_refresh_token` has been called on it (no new access token is
granted); revoking a stored non-revoked token marks it revoked and returns
`true`; revoking a never-issued or already-revoked token returns `false`
without raising. -/
theorem C7_revoke_semantics (users : List UserRec) (uid : Int) (jti : String)
    (n₁ n₂ : Nat) (db₁ db₂ db₃ : List RefreshTokenRow) (r : RefreshTokenRow)
    (hmiss : ∀ x ∈ db₁,
      revokeMatch (hash_refresh_token (create_refresh_token uid jti n₁)) x
        = false)
    (hr : revokeMatch (hash_refresh_token (create_refresh_token uid jti n₁)) r
        = true)
    (hnone : ∀ x ∈ db₃,
      revokeMatch (hash_refresh_token (create_refresh_token uid jti n₁)) x
        = false) :
    refreshEndpoint users (create_refresh_token uid jti n₁) n₂ = none ∧
    revoke_refresh_token (db₁ ++ r :: db₂) (create_refresh_token uid jti n₁)
      = (true, db₁ ++ { r with isRevoked := true } :: db₂) ∧
    revoke_refresh_token db₃ (create_refresh_token uid jti n₁)
      = (false, db₃) := by
  refine ⟨?_, ?_, ?_⟩
  · unfold refreshEndpoint
    rw [verify_refresh_eq_none uid jti n₁ n₂ "refresh"]
  · have hfind : (db₁ ++ r :: db₂).find?
        (revokeMatch (hash_refresh_token (create_refresh_token uid jti n₁)))
        = some r := by
      rw [find?_append_left_none _ db₁ _ hmiss]
      exact List.find?_cons_of_pos _ hr
    unfold revoke_refresh_token
    rw [hfind, updateFirst_append_left _ _ db₁ _ hmiss,
      updateFirst_cons_pos _ _ r db₂ hr]
  · have hfind : db₃.find?
        (revokeMatch (hash_refresh_token (create_refresh_token uid jti n₁)))
        = none :=
      List.find?_eq_none.mpr (fun x hx => by simp [hnone x hx])
    unfold revoke_refresh_token
    rw [hfind]

/-- Stored, not-yet-revoked row for the C7 scenario token. -/
def liveRow : RefreshTokenRow :=
  { userId := 1, tokenHash := hash_refresh_token (create_refresh_token 1 "jti1" 0),
    expiresAt := 604800 }

/-- Already-revoked row for the C7 scenario token. -/
def revokedRow : RefreshTokenRow :=
  { userId := 1, tokenHash := hash_refresh_token (create_refresh_token 1 "jti1" 0),
    expiresAt := 604800, isRevoked := true }

/-- Witness for C7 at a concrete issued token. -/
theorem C7_revoke_semantics_witness :
    refreshEndpoint [] (create_refresh_token 1 "jti1" 0) 99 = none ∧
    revoke_refresh_token ([] ++ liveRow :: []) (create_refresh_token 1 "jti1" 0)
      = (true, [] ++ { liveRow with isRevoked := true } :: []) ∧
    revoke_refresh_token [revokedRow] (create_refresh_token 1 "jti1" 0)
      = (false, [revokedRow]) :=
  C7_revoke_semantics [] 1 "jti1" 0 99 [] [] [revokedRow] liveRow
    (fun x hx => absurd hx (List.not_mem_nil x))
    (by decide)
    (fun x hx => by rw [List.mem_singleton] at hx; subst hx; decide)

/-- Claim C10: when `store_token` updates an existing active row and the
incoming data carries no refresh token (a missing value or, by Python
truthiness, the empty string), the previously stored encrypted refresh-token
ciphertext is retained, while the access-token ciphertext, token type,
scope, expiry (`None` when `expires_in` is falsy) and client id are all
replaced, and the table is the in-place update of the first active row. -/
theorem C10_update_keeps_old_refresh (key : String) (db : List OAuth2TokenRow)
    (uid : Int) (td : OAuth2TokenCreate) (now newId : Nat) (r : OAuth2TokenRow)
    (hfind : db.find? (activeMatch uid td.serviceName) = some r)
    (hrt : td.refreshToken = none ∨ td.refreshToken = some "") :
    (store_token key db uid td now newId).1.refreshToken = r.refreshToken ∧
    (store_token key db uid td now newId).1.accessToken
      = fernetEncrypt key td.accessToken ∧
    (store_token key db uid td now newId).1.tokenType = td.tokenType ∧
    (store_token key db uid td now newId).1.scope = td.scope ∧
    (store_token key db uid td now newId).1.expiresAt
      = computeExpiry td.expiresIn now ∧
    (store_token key db uid td now newId).1.clientId = td.clientId ∧
    (store_token key db uid td now newId).2
      = updateFirst (activeMatch uid td.serviceName)
          (applyUpdate key td (computeExpiry td.expiresIn now) now) db := by
  rw [store_token_eq_update key db uid td now newId r hfind]
  rcases hrt with hrt | hrt <;> simp [applyUpdate, hrt]

/-- Existing active vault row whose refresh-token ciphertext is set, for the
C10 scenario. -/
def oldGithubRow : OAuth2TokenRow :=
  { id := 7, userId := 1, serviceName := "github",
    accessToken := fernetEncrypt "k" "A",
    refreshToken := some (fernetEncrypt "k" "oldRT"),
    scope := "read:user", updatedAt := 0 }

/-- Incoming token data with no refresh token, for the C10 scenario. -/
def tdNoRefresh : OAuth2TokenCreate :=
  { serviceName := "github", accessToken := "B", scope := "user:email" }

/-- Witness for C10 at a concrete existing row. -/
theorem C10_update_keeps_old_refresh_witness :
    (store_token "k" [oldGithubRow] 1 tdNoRefresh 3 9).1.refreshToken
      = oldGithubRow.refreshToken ∧
    (store_token "k" [oldGithubRow] 1 tdNoRefresh 3 9).1.accessToken
      = fernetEncrypt "k" tdNoRefresh.accessToken ∧
    (store_token "k" [oldGithubRow] 1 tdNoRefresh 3 9).1.tokenType
      = tdNoRefresh.tokenType ∧
    (store_token "k" [oldGithubRow] 1 tdNoRefresh 3 9).1.scope
      = tdNoRefresh.scope ∧
    (store_token "k" [oldGithubRow] 1 tdNoRefresh 3 9).1.expiresAt
      = computeExpiry tdNoRefresh.expiresIn 3 ∧
    (store_token "k" [oldGithubRow] 1 tdNoRefresh 3 9).1.clientId
      = tdNoRefresh.clientId ∧
    (store_token "k" [oldGithubRow] 1 tdNoRefresh 3 9).2
      = updateFirst (activeMatch 1 tdNoRefresh.serviceName)
          (applyUpdate "k" tdNoRefresh
            (computeExpiry tdNoRefresh.expiresIn 3) 3) [oldGithubRow] :=
  C10_update_keeps_old_refresh "k" [oldGithubRow] 1 tdNoRefresh 3 9
    oldGithubRow (by decide) (Or.inl rfl)

/-- Witness for the amended C4 at a concrete locked user. -/
theorem C4_locked_rejected_witness :
    (login [lockedBob] [] "bob" "Str0ng!Pass" 0 "jti").result
      = .accountLocked ∧
    (login [lockedBob] [] "bob" "Str0ng!Pass" 0 "jti").credChecks
      = [⟨"Str0ng!Pass", lockedBob.hashedPassword, true⟩] :=
  C4_locked_rejected_after_password_check [lockedBob] [] "bob" "Str0ng!Pass"
    0 "jti" lockedBob (by decide) (by decide) (by decide) (by decide)

end SecureApi
